import Mathlib

/-!
Verification of `src/backend/app.py` (azubi-va): an AWS Lambda handler that
validates a JSON request, synthesizes speech via a synthesis capability
(Polly), stores the audio bytes in object storage (S3) under a generated key,
and returns a structured JSON response.

The embedding below translates the Python source shallowly:

* JSON / Python values are `PyVal`; Python truthiness is `PyVal.truthy`.
* Exceptions become `Except PyError`; the variants mirror the exception
  classes the handler's `except` clauses distinguish
  (`ValueError`, `BotoCoreError`/`ClientError`, everything else).
* The external collaborators (`polly.synthesize_speech`, `s3.put_object`,
  `s3.generate_presigned_url`) and the generated `uuid.uuid4()` are an
  explicit oracle record `Aws`, so theorems quantify over mocked capabilities.
* Environment configuration (`MAX_CHARS`, `AUDIO_BUCKET`,
  `URL_EXPIRY_SECONDS`, `ALLOWED_ORIGIN`) is an explicit `Config`.
-/

set_option autoImplicit false

/-- A Python value as produced by `json.loads` (and consumed with Python
semantics: truthiness, `dict.get`, `str` methods). Numbers are modelled as
integers, which covers every value this service's claims touch. -/
inductive PyVal where
  | null
  | bool (b : Bool)
  | num (n : Int)
  | str (s : String)
  | arr (elems : List PyVal)
  | obj (kvs : List (String × PyVal))

/-- Python `bool(v)` for the modelled values: `None`, `False`, `0`, `""`,
`[]` and `{}` are falsy, everything else is truthy. -/
def PyVal.truthy : PyVal → Bool
  | .null => false
  | .bool b => b
  | .num n => n != 0
  | .str s => s != ""
  | .arr elems => !elems.isEmpty
  | .obj kvs => !kvs.isEmpty

/-- Python type name of a value, as it appears in `AttributeError` messages. -/
def PyVal.pyType : PyVal → String
  | .null => "NoneType"
  | .bool _ => "bool"
  | .num _ => "int"
  | .str _ => "str"
  | .arr _ => "list"
  | .obj _ => "dict"

/-- Key lookup inside an object value (used to state properties of the
response payload); `none` on non-objects and absent keys. -/
def PyVal.objLookup : PyVal → String → Option PyVal
  | .obj kvs, k => kvs.lookup k
  | _, _ => none

/-- The exception classes the handler's `except` clauses tell apart.
`valueError` covers `ValueError` and its subclasses (`json.JSONDecodeError`,
`binascii.Error`); `awsError` covers `BotoCoreError` and `ClientError`;
the remaining variants are ordinary exceptions caught only by the final
`except Exception`. -/
inductive PyError where
  | valueError (m : String)
  | typeError (m : String)
  | attributeError (m : String)
  | keyError (k : String)
  | runtimeError (m : String)
  | awsError (m : String)

/-- Python `str(e)` for the modelled exceptions. -/
def PyError.msg : PyError → String
  | .valueError m => m
  | .typeError m => m
  | .attributeError m => m
  | .keyError k => "\x27" ++ k ++ "\x27"
  | .runtimeError m => m
  | .awsError m => m

/-- Python `d.get(k)`: `AttributeError` when the receiver is not a dict,
otherwise the value (or `None`, modelled as `Option.none`, when absent). -/
def dget (j : PyVal) (k : String) : Except PyError (Option PyVal) :=
  match j with
  | .obj kvs => .ok (kvs.lookup k)
  | v => .error (.attributeError ("\x27" ++ v.pyType ++ "\x27 object has no attribute \x27get\x27"))

/-- Python `d.get(k, dflt)`. -/
def dgetD (j : PyVal) (k : String) (dflt : PyVal) : Except PyError PyVal :=
  match dget j k with
  | .error e => .error e
  | .ok none => .ok dflt
  | .ok (some v) => .ok v

/-- Python `v or dflt` applied to an optional lookup result: the value when
present and truthy, the default otherwise. -/
def pyOr (v : Option PyVal) (dflt : PyVal) : PyVal :=
  match v with
  | some x => if x.truthy then x else dflt
  | none => dflt

/-- Characters Python's `str.strip()` removes (the ASCII whitespace set;
the source never sees non-ASCII whitespace). -/
def pyIsSpace (c : Char) : Bool :=
  c = ' ' || c = '\t' || c = '\n' || c = '\r' || c = '\x0b' || c = '\x0c'

/-- Python `s.strip()`. -/
def strip_str (s : String) : String :=
  ⟨((s.data.dropWhile pyIsSpace).reverse.dropWhile pyIsSpace).reverse⟩

/-- Python `s.lower()` (ASCII, which covers the format tokens involved). -/
def lower_str (s : String) : String :=
  ⟨s.data.map Char.toLower⟩

/-- Python `v.strip()` on an arbitrary value: `AttributeError` unless `v`
is a string. -/
def pyStrip : PyVal → Except PyError String
  | .str s => .ok (strip_str s)
  | v => .error (.attributeError ("\x27" ++ v.pyType ++ "\x27 object has no attribute \x27strip\x27"))

/-- Module-level configuration of `app.py`, read from the environment at
startup: `MAX_CHARS` (default 3000), `AUDIO_BUCKET` (required),
`URL_EXPIRY_SECONDS` (default 3600), `ALLOWED_ORIGIN` (default wildcard). -/
structure Config where
  maxChars : Nat
  audioBucket : String
  urlExpirySeconds : Nat
  allowedOrigin : String

/-- The constant `DEFAULT_VOICE = "Joanna"`. -/
def DEFAULT_VOICE : String := "Joanna"

/-- The constant `SUPPORTED_FORMATS` dict: format token to
(content type, Polly output format), in insertion order. -/
def SUPPORTED_FORMATS : List (String × String × String) :=
  [("mp3", "audio/mpeg", "mp3"),
   ("ogg_vorbis", "audio/ogg", "ogg_vorbis"),
   ("pcm", "audio/wave", "pcm")]

/-- `SUPPORTED_FORMATS[fmt]` as a partial lookup. -/
def fmtLookup (fmt : String) : Option (String × String) :=
  SUPPORTED_FORMATS.lookup fmt

/-- The format keys, used for the membership test `fmt in SUPPORTED_FORMATS`. -/
def supportedKeys : List String :=
  SUPPORTED_FORMATS.map Prod.fst

/-- Python `", ".join(...)`. -/
def joinComma : List String → String
  | [] => ""
  | [x] => x
  | x :: xs => x ++ ", " ++ joinComma xs

/-- The message raised for an unsupported format. -/
def format_err_msg : String :=
  "\x27format\x27 must be one of: " ++ joinComma supportedKeys

/-- The message raised for missing text. -/
def required_msg : String := "Field \x27text\x27 is required"

/-- The message raised for over-long text (an f-string in the source). -/
def too_long_msg (n limit : Nat) : String :=
  "Text too long (" ++ toString n ++ " chars). Limit is " ++ toString limit ++ "."

/-- Value of a character in the standard base64 alphabet. -/
def b64val (c : Char) : Option Nat :=
  if 'A' ≤ c ∧ c ≤ 'Z' then some (c.toNat - 65)
  else if 'a' ≤ c ∧ c ≤ 'z' then some (c.toNat - 97 + 26)
  else if '0' ≤ c ∧ c ≤ '9' then some (c.toNat - 48 + 52)
  else if c = '+' then some 62
  else if c = '/' then some 63
  else none

/-- Characters `base64.b64decode(..., validate=False)` keeps; all others are
discarded before decoding. -/
def b64keep (c : Char) : Bool := (b64val c).isSome || c = '='

/-- Decode filtered base64 quadruples into bytes; `=` padding ends the data. -/
def b64groups : List Char → List Nat
  | a :: b :: c :: d :: rest =>
    let va := (b64val a).getD 0
    let vb := (b64val b).getD 0
    let b1 := va * 4 + vb / 16
    if c = '=' then [b1]
    else
      let vc := (b64val c).getD 0
      let b2 := (vb % 16) * 16 + vc / 4
      if d = '=' then [b1, b2]
      else b1 :: b2 :: ((vc % 4) * 64 + (b64val d).getD 0) :: b64groups rest
  | _ => []

/-- Model of `base64.b64decode(s)` (default `validate=False`): characters
outside the alphabet are discarded; the remaining length must be a multiple
of four, otherwise `binascii.Error("Incorrect padding")` — a `ValueError`
subclass — is raised. The decoded bytes are rendered as characters, matching
how `json.loads` treats them downstream. -/
def b64decode (s : String) : Except String String :=
  let cs := s.data.filter b64keep
  if cs.length % 4 = 0 then .ok ⟨(b64groups cs).map Char.ofNat⟩
  else .error "Incorrect padding"

/-- JSON insignificant whitespace. -/
def isJsonWs (c : Char) : Bool := c = ' ' || c = '\t' || c = '\n' || c = '\r'

/-- Drop leading JSON whitespace. -/
def skipWs : List Char → List Char
  | [] => []
  | c :: cs => if isJsonWs c then skipWs cs else c :: cs

/-- Parse the remainder of a JSON string literal (after the opening quote),
returning its characters and the rest of the input. Handles the single-char
escapes; `\uXXXX` escapes are outside the modelled subset. -/
def parseStrChars : List Char → Option (List Char × List Char)
  | [] => none
  | '"' :: cs => some ([], cs)
  | '\\' :: e :: cs =>
    match (match e with
      | '"' => some '"'
      | '\\' => some '\\'
      | '/' => some '/'
      | 'n' => some '\n'
      | 't' => some '\t'
      | 'r' => some '\r'
      | 'b' => some (Char.ofNat 8)
      | 'f' => some (Char.ofNat 12)
      | _ => none) with
    | none => none
    | some ch =>
      match parseStrChars cs with
      | none => none
      | some (inner, cs1) => some (ch :: inner, cs1)
  | c :: cs =>
    match parseStrChars cs with
    | none => none
    | some (inner, cs1) => some (c :: inner, cs1)

/-- Accumulate decimal digits. -/
def digitsToNat : List Char → Nat → Nat
  | [], acc => acc
  | c :: cs, acc => digitsToNat cs (acc * 10 + (c.toNat - 48))

/-- Python dicts built by `json.loads` keep the value of the later duplicate
key; `kvs` holds the later members, so an earlier pair is dropped when its
key is already present. -/
def dictCons (k : String) (v : PyVal) (kvs : List (String × PyVal)) : List (String × PyVal) :=
  if (kvs.lookup k).isSome then kvs else (k, v) :: kvs

/-- Fuel-indexed JSON parser underlying the model of `json.loads`.
Mode 0 parses a value, mode 1 the members of an object after `\x7b`,
mode 2 the elements of an array after `[`. Numbers are restricted to
integers (the modelled subset); nesting is fully supported. -/
def pj : Nat → Nat → List Char → Option (PyVal × List Char)
  | 0, _, _ => none
  | f + 1, 0, cs0 =>
    match skipWs cs0 with
    | '"' :: rest =>
      (parseStrChars rest).map fun p => (.str ⟨p.1⟩, p.2)
    | '\x7b' :: rest =>
      (match skipWs rest with
        | '\x7d' :: cs1 => some (.obj [], cs1)
        | cs1 => pj f 1 cs1)
    | '[' :: rest =>
      (match skipWs rest with
        | ']' :: cs1 => some (.arr [], cs1)
        | cs1 => pj f 2 cs1)
    | 'n' :: 'u' :: 'l' :: 'l' :: cs1 => some (.null, cs1)
    | 't' :: 'r' :: 'u' :: 'e' :: cs1 => some (.bool true, cs1)
    | 'f' :: 'a' :: 'l' :: 's' :: 'e' :: cs1 => some (.bool false, cs1)
    | '-' :: rest =>
      let ds := rest.takeWhile Char.isDigit
      if ds.isEmpty then none
      else some (.num (-(digitsToNat ds 0 : Int)), rest.dropWhile Char.isDigit)
    | c :: rest =>
      if c.isDigit then
        let ds := (c :: rest).takeWhile Char.isDigit
        some (.num (digitsToNat ds 0 : Int), (c :: rest).dropWhile Char.isDigit)
      else none
    | [] => none
  | f + 1, 1, cs0 =>
    match skipWs cs0 with
    | '"' :: rest =>
      match parseStrChars rest with
      | none => none
      | some (kc, cs1) =>
        match skipWs cs1 with
        | ':' :: cs2 =>
          match pj f 0 cs2 with
          | none => none
          | some (v, cs3) =>
            match skipWs cs3 with
            | ',' :: cs4 =>
              (match pj f 1 cs4 with
                | some (.obj kvs, cs5) => some (.obj (dictCons ⟨kc⟩ v kvs), cs5)
                | _ => none)
            | '\x7d' :: cs4 => some (.obj [(⟨kc⟩, v)], cs4)
            | _ => none
        | _ => none
    | _ => none
  | f + 1, 2, cs0 =>
    match pj f 0 cs0 with
    | none => none
    | some (v, cs1) =>
      match skipWs cs1 with
      | ',' :: cs2 =>
        (match pj f 2 cs2 with
          | some (.arr vs, cs3) => some (.arr (v :: vs), cs3)
          | _ => none)
      | ']' :: cs2 => some (.arr [v], cs2)
      | _ => none
  | _ + 1, _ + 3, _ => none

/-- Model of `json.loads` on text: parse one value, then require only
whitespace to remain. The fuel bound exceeds the recursion depth any input
of this length can need. -/
def jsonLoads (s : String) : Except String PyVal :=
  match pj (s.data.length + 2) 0 s.data with
  | some (v, rest) => if (skipWs rest).isEmpty then .ok v else .error "Extra data"
  | none => .error "Expecting value"

/-- Truthiness of an optional lookup result: `if event.get(k):` is true when
the key is present with a truthy value. -/
def flag_truthy (v : Option PyVal) : Bool :=
  match v with
  | some x => x.truthy
  | none => false

/-- `_parse_body(event)`: take `event.get("body") or "\x7b\x7d"`, base64-decode
it when `event.get("isBase64Encoded")` is truthy (note: the decode happens
outside the `try`, so a `binascii.Error` — a `ValueError` — carries its own
message), then `json.loads` it, any parse failure being re-raised as
`ValueError("Invalid JSON body")`. -/
def parse_body (event : PyVal) : Except PyError PyVal :=
  match dget event "body" with
  | .error e => .error e
  | .ok bodyOpt =>
    let rawJ := pyOr bodyOpt (.str "\x7b\x7d")
    match dget event "isBase64Encoded" with
    | .error e => .error e
    | .ok flagOpt =>
      let isB64 := flag_truthy flagOpt
      let rawE : Except PyError PyVal :=
        if isB64 then
          match rawJ with
          | .str s =>
            (match b64decode s with
              | .ok d => .ok (.str d)
              | .error m => .error (.valueError m))
          | v => .error (.typeError
              ("argument should be a bytes-like object or ASCII string, not \x27" ++ v.pyType ++ "\x27"))
        else .ok rawJ
      match rawE with
      | .error e => .error e
      | .ok (.str s) =>
        (match jsonLoads s with
          | .ok j => .ok j
          | .error _ => .error (.valueError "Invalid JSON body"))
      | .ok _ => .error (.valueError "Invalid JSON body")

/-- `_read_inputs(body)`: validate and default the four request fields,
returning `(text, voice_id, fmt, use_ssml)`. -/
def read_inputs (cfg : Config) (body : PyVal) : Except PyError (String × String × String × Bool) :=
  match dget body "text" with
  | .error e => .error e
  | .ok tv =>
    match pyStrip (pyOr tv (.str "")) with
    | .error e => .error e
    | .ok text =>
      if text = "" then .error (.valueError required_msg)
      else if text.length > cfg.maxChars then
        .error (.valueError (too_long_msg text.length cfg.maxChars))
      else
        match dget body "format" with
        | .error e => .error e
        | .ok fv =>
          match pyStrip (pyOr fv (.str "mp3")) with
          | .error e => .error e
          | .ok fmtStripped =>
            if supportedKeys.contains (lower_str fmtStripped) then
              match dget body "voiceId" with
              | .error e => .error e
              | .ok vv =>
                match pyStrip (pyOr vv (.str DEFAULT_VOICE)) with
                | .error e => .error e
                | .ok voice_id =>
                  match dget body "useSsml" with
                  | .error e => .error e
                  | .ok uv => .ok (text, voice_id, lower_str fmtStripped, (uv.getD (.bool false)).truthy)
            else .error (.valueError format_err_msg)

/-- The keyword arguments `_synthesize` passes to `polly.synthesize_speech`:
`TextType` is present (as `"ssml"`) exactly when `use_ssml` is true. -/
structure SynthArgs where
  voiceId : String
  outputFormat : String
  textType : Option String
  text : String

/-- Arguments of `s3.put_object`. -/
structure PutArgs where
  bucket : String
  key : String
  body : List Nat
  contentType : String

/-- Arguments of `s3.generate_presigned_url` for `get_object`. -/
structure PresignArgs where
  bucket : String
  key : String
  expiresIn : Nat

/-- The external capabilities the handler calls, as a mockable oracle:
`synthesize` returns `resp.get("AudioStream")` with the stream already read
into bytes (`none` models an absent/None stream), `putObject` and
`presignUrl` model the two S3 calls, and `uuid` is the identifier
`uuid.uuid4()` yields for this invocation. -/
structure Aws where
  synthesize : SynthArgs → Except PyError (Option (List Nat))
  putObject : PutArgs → Except PyError Unit
  presignUrl : PresignArgs → Except PyError String
  uuid : String

/-- `_synthesize(text, voice_id, fmt, use_ssml)`: look up the Polly output
format (`KeyError` if absent), call the capability, and fail with
`RuntimeError("Polly returned no audio stream")` when no stream came back. -/
def synthesize (aws : Aws) (text voice_id fmt : String) (use_ssml : Bool) :
    Except PyError (List Nat) :=
  match fmtLookup fmt with
  | none => .error (.keyError fmt)
  | some (_, output_format) =>
    match aws.synthesize
        { voiceId := voice_id, outputFormat := output_format,
          textType := if use_ssml then some "ssml" else none, text := text } with
    | .error e => .error e
    | .ok none => .error (.runtimeError "Polly returned no audio stream")
    | .ok (some data) => .ok data

/-- The file extension `_store_audio` derives from the format token. -/
def audio_ext (fmt : String) : String :=
  if fmt = "mp3" then "mp3" else if fmt = "ogg_vorbis" then "ogg" else "pcm"

/-- The content type `_store_audio` reads from `SUPPORTED_FORMATS[fmt][0]`
(only ever used at supported formats). -/
def content_type_of (fmt : String) : String :=
  match fmtLookup fmt with
  | some (ct, _) => ct
  | none => ""

/-- `_store_audio(fmt, data)`: build the key `audio/<uuid>.<ext>`, put the
bytes with the format's content type, request a presigned URL for the same
key, and return `(key, content_type, url)`. -/
def store_audio (cfg : Config) (aws : Aws) (fmt : String) (data : List Nat) :
    Except PyError (String × String × String) :=
  let key := "audio/" ++ aws.uuid ++ "." ++ audio_ext fmt
  match fmtLookup fmt with
  | none => .error (.keyError fmt)
  | some (content_type, _) =>
    match aws.putObject
        { bucket := cfg.audioBucket, key := key, body := data, contentType := content_type } with
    | .error e => .error e
    | .ok () =>
      match aws.presignUrl
          { bucket := cfg.audioBucket, key := key, expiresIn := cfg.urlExpirySeconds } with
      | .error e => .error e
      | .ok url => .ok (key, content_type, url)

/-- An HTTP-style Lambda proxy response. The body is kept as the structured
payload handed to `json.dumps`. -/
structure HttpResponse where
  statusCode : Nat
  headers : List (String × String)
  body : PyVal

/-- The fixed header dict `_json_response` attaches to every response. -/
def response_headers (cfg : Config) : List (String × String) :=
  [("Content-Type", "application/json"),
   ("Access-Control-Allow-Origin", cfg.allowedOrigin),
   ("Access-Control-Allow-Headers", "*"),
   ("Access-Control-Allow-Methods", "OPTIONS,POST")]

/-- `_json_response(code, payload)`. -/
def json_response (cfg : Config) (code : Nat) (payload : PyVal) : HttpResponse :=
  { statusCode := code, headers := response_headers cfg, body := payload }

/-- The `except` clauses of `lambda_handler`, in source order: `ValueError`
to 400 with the message verbatim; `BotoCoreError`/`ClientError` to 500 with
the "AWS error" category; any other exception to 500 with the
"Unexpected error" category. -/
def handle_errors (cfg : Config) : Except PyError PyVal → HttpResponse
  | .ok payload => json_response cfg 200 payload
  | .error (.valueError m) =>
    json_response cfg 400 (.obj [("error", .str m)])
  | .error (.awsError m) =>
    json_response cfg 500 (.obj [("error", .str "AWS error"), ("detail", .str m)])
  | .error e =>
    json_response cfg 500 (.obj [("error", .str "Unexpected error"), ("detail", .str e.msg)])

/-- The body of `lambda_handler`'s `try:` block: parse, validate,
synthesize, store, and build the success payload. -/
def try_block (cfg : Config) (aws : Aws) (event : PyVal) : Except PyError PyVal :=
  match parse_body event with
  | .error e => .error e
  | .ok body =>
    match read_inputs cfg body with
    | .error e => .error e
    | .ok (text, voice_id, fmt, use_ssml) =>
      match synthesize aws text voice_id fmt use_ssml with
      | .error e => .error e
      | .ok audio =>
        match store_audio cfg aws fmt audio with
        | .error e => .error e
        | .ok (key, content_type, url) =>
          .ok (.obj [("audioUrl", .str url),
                     ("bucket", .str cfg.audioBucket),
                     ("key", .str key),
                     ("voiceId", .str voice_id),
                     ("format", .str fmt),
                     ("contentType", .str content_type),
                     ("ssml", .bool use_ssml)])

/-- The field accesses of the structured log `print` that runs before the
`try:` block: `event.get("requestContext", \x7b\x7d).get("http", \x7b\x7d).get("sourceIp")`
and `event.get("rawPath")`. Each `.get` on a non-dict raises
`AttributeError`; the `print`/`json.dumps` themselves cannot fail on the
modelled values. `getattr(context, "aws_request_id", None)` never fails and
is dropped from the model. -/
def log_extract (event : PyVal) : Except PyError Unit :=
  match dgetD event "requestContext" (.obj []) with
  | .error e => .error e
  | .ok rc =>
    match dgetD rc "http" (.obj []) with
    | .error e => .error e
    | .ok http =>
      match dget http "sourceIp" with
      | .error e => .error e
      | .ok _ =>
        match dget event "rawPath" with
        | .error e => .error e
        | .ok _ => .ok ()

/-- `lambda_handler(event, context)`: the structured log line runs before
the `try:` block, so its failures propagate out of the handler (the
`.error` case); everything inside the `try:` is converted to a response by
the `except` clauses. -/
def lambda_handler (cfg : Config) (aws : Aws) (event : PyVal) :
    Except PyError HttpResponse :=
  match log_extract event with
  | .error e => .error e
  | .ok () => .ok (handle_errors cfg (try_block cfg aws event))

/-! ## Concrete fixtures used by witnesses and counterexamples -/

/-- A concrete configuration matching the documented defaults. -/
def cfgEx : Config :=
  { maxChars := 3000, audioBucket := "bkt", urlExpirySeconds := 3600, allowedOrigin := "*" }

/-- A mocked capability record on which every call succeeds. -/
def awsOk : Aws :=
  { synthesize := fun _ => .ok (some [7, 7]),
    putObject := fun _ => .ok (),
    presignUrl := fun a => .ok ("https://signed/" ++ a.key),
    uuid := "test-uuid" }

/-- A mocked synthesis capability whose response carries no audio stream. -/
def awsNoStream : Aws :=
  { awsOk with synthesize := fun _ => .ok none }

/-- A mocked capability that reveals whether synthesis was invoked in
markup mode: the audio is `[1]` when `TextType` was `"ssml"`, else `[0]`. -/
def ssmlProbe : Aws :=
  { awsOk with synthesize := fun args => .ok (some (if args.textType = some "ssml" then [1] else [0])) }

/-- A mocked capability that echoes the voice identifier it was handed as
the audio byte values, so an empty voice id yields empty audio. -/
def voiceProbe : Aws :=
  { awsOk with synthesize := fun args => .ok (some (args.voiceId.data.map Char.toNat)) }

/-- Event for the spec's end-to-end example `\x7b"text": "Hello world", "format": "mp3"\x7d`. -/
def evHello : PyVal := .obj [("body", .str "\x7b\"text\": \"Hello world\", \"format\": \"mp3\"\x7d")]

/-- Event with body `\x7b"text": "hi"\x7d`. -/
def evHi : PyVal := .obj [("body", .str "\x7b\"text\": \"hi\"\x7d")]

/-- Event whose format survives strip-then-lower normalization although its
lower-cased value alone is unsupported. -/
def evFmtSpace : PyVal := .obj [("body", .str "\x7b\"text\": \"hi\", \"format\": \" MP3\"\x7d")]

/-- Event with no body but flagged base64-encoded. -/
def evB64 : PyVal := .obj [("body", .null), ("isBase64Encoded", .bool true)]

/-- Event whose `requestContext` is a string rather than a dict. -/
def evBadRC : PyVal := .obj [("requestContext", .str "ctx"), ("body", .str "\x7b\x7d")]

/-- Event with an absent body and no base64 flag. -/
def evNoBody : PyVal := .obj []

/-- Event with a whitespace-only text. -/
def evBlankText : PyVal := .obj [("body", .str "\x7b\"text\": \"  \"\x7d")]

/-- Event whose text exceeds a tiny configured maximum. -/
def evLongText : PyVal := .obj [("body", .str "\x7b\"text\": \"абв longer than five\"\x7d")]

/-- A configuration with a five-character text limit. -/
def cfgSmall : Config := { cfgEx with maxChars := 5 }

/-- Event exercising `useSsml` with the string `"false"`. -/
def evSsmlStr : PyVal :=
  .obj [("body", .str "\x7b\"text\": \"hi\", \"useSsml\": \"false\"\x7d")]

/-- Event exercising a whitespace-only `voiceId`. -/
def evVoiceSpace : PyVal :=
  .obj [("body", .str "\x7b\"text\": \"hi\", \"voiceId\": \" \"\x7d")]

/-! ## General lemmas about the embedding -/

/-- After a successful pre-`try` log, the handler returns whatever the
`except` clauses make of the `try:` block. -/
theorem lambda_handler_of_log (cfg : Config) (aws : Aws) (event : PyVal)
    (hl : log_extract event = .ok ()) :
    lambda_handler cfg aws event = .ok (handle_errors cfg (try_block cfg aws event)) := by
  unfold lambda_handler
  rw [hl]

/-- A failing `_read_inputs` short-circuits the `try:` block. -/
theorem try_block_of_read_err (cfg : Config) (aws : Aws) (event : PyVal) (body : PyVal)
    (e : PyError) (hp : parse_body event = .ok body) (hr : read_inputs cfg body = .error e) :
    try_block cfg aws event = .error e := by
  simp only [try_block, hp, hr]

/-- Missing text: when the (defaulted, stripped) text is empty,
`_read_inputs` raises the required-field `ValueError`. -/
theorem read_inputs_err_required (cfg : Config) (body : PyVal) (tv : Option PyVal)
    (htv : dget body "text" = .ok tv) (hempty : pyStrip (pyOr tv (.str "")) = .ok "") :
    read_inputs cfg body = .error (.valueError required_msg) := by
  simp only [read_inputs, htv, hempty]
  simp

/-- Over-long text: when the stripped text exceeds the limit, `_read_inputs`
raises the too-long `ValueError`. -/
theorem read_inputs_err_too_long (cfg : Config) (body : PyVal) (tv : Option PyVal) (t : String)
    (htv : dget body "text" = .ok tv) (hst : pyStrip (pyOr tv (.str "")) = .ok t)
    (hlen : t.length > cfg.maxChars) :
    read_inputs cfg body = .error (.valueError (too_long_msg t.length cfg.maxChars)) := by
  have hne : t ≠ "" := by
    intro h
    subst h
    simp [String.length] at hlen
  simp only [read_inputs, htv, hst]
  simp [hne, hlen]

/-- Unsupported format: when the text checks pass but the (defaulted,
stripped, lower-cased) format is not a supported key, `_read_inputs` raises
the enumerating `ValueError`. -/
theorem read_inputs_err_format (cfg : Config) (body : PyVal) (tv fv : Option PyVal)
    (t fs : String)
    (htv : dget body "text" = .ok tv) (hst : pyStrip (pyOr tv (.str "")) = .ok t)
    (hne : t ≠ "") (hlen : t.length ≤ cfg.maxChars)
    (hfv : dget body "format" = .ok fv) (hfs : pyStrip (pyOr fv (.str "mp3")) = .ok fs)
    (hbad : supportedKeys.contains (lower_str fs) = false) :
    read_inputs cfg body = .error (.valueError format_err_msg) := by
  simp only [read_inputs, htv, hst, hfv, hfs]
  rw [hbad]
  simp [hne, Nat.not_lt.mpr hlen]

/-- Inversion of a successful `_read_inputs`: recover the raw field values
and the validation facts the success implies. -/
theorem read_inputs_ok_elim (cfg : Config) (body : PyVal) (text voice fmt : String) (ssml : Bool)
    (h : read_inputs cfg body = .ok (text, voice, fmt, ssml)) :
    ∃ tv fv vv uv fs,
      dget body "text" = .ok tv ∧ pyStrip (pyOr tv (.str "")) = .ok text ∧
      text ≠ "" ∧ text.length ≤ cfg.maxChars ∧
      dget body "format" = .ok fv ∧ pyStrip (pyOr fv (.str "mp3")) = .ok fs ∧
      fmt = lower_str fs ∧ supportedKeys.contains fmt = true ∧
      dget body "voiceId" = .ok vv ∧ pyStrip (pyOr vv (.str DEFAULT_VOICE)) = .ok voice ∧
      dget body "useSsml" = .ok uv ∧ ssml = (uv.getD (.bool false)).truthy := by
  unfold read_inputs at h
  repeat' split at h
  all_goals try cases h
  exact ⟨_, _, _, _, _, ‹_›, ‹_›, ‹_›, Nat.le_of_not_lt ‹_›, ‹_›, ‹_›, rfl, ‹_›, ‹_›, ‹_›, ‹_›, rfl⟩

/-- A validated format token is one of the three supported keys. -/
theorem supported_cases (fmt : String) (h : supportedKeys.contains fmt = true) :
    fmt = "mp3" ∨ fmt = "ogg_vorbis" ∨ fmt = "pcm" := by
  simp [supportedKeys, SUPPORTED_FORMATS] at h
  exact h

/-- Inversion of a successful `_store_audio`: the key is
`audio/<uuid>.<ext>`, the content type comes from `SUPPORTED_FORMATS`, and
both storage calls were issued against exactly that key. -/
theorem store_audio_ok_elim (cfg : Config) (aws : Aws) (fmt : String) (data : List Nat)
    (key content_type url : String)
    (h : store_audio cfg aws fmt data = .ok (key, content_type, url)) :
    key = "audio/" ++ aws.uuid ++ "." ++ audio_ext fmt ∧
    (∃ pf, fmtLookup fmt = some (content_type, pf)) ∧
    aws.putObject { bucket := cfg.audioBucket, key := key, body := data,
                    contentType := content_type } = .ok () ∧
    aws.presignUrl { bucket := cfg.audioBucket, key := key,
                     expiresIn := cfg.urlExpirySeconds } = .ok url := by
  simp only [store_audio] at h
  repeat' split at h
  all_goals try cases h
  exact ⟨rfl, ⟨_, ‹_›⟩, ‹_›, ‹_›⟩

/-- Inversion of a successful `try:` block: recover the parsed body, the
validated inputs, the synthesized audio, the stored object, and the shape
of the success payload. -/
theorem try_block_ok_elim (cfg : Config) (aws : Aws) (event : PyVal) (p : PyVal)
    (h : try_block cfg aws event = .ok p) :
    ∃ body text voice_id fmt use_ssml audio key content_type url,
      parse_body event = .ok body ∧
      read_inputs cfg body = .ok (text, voice_id, fmt, use_ssml) ∧
      synthesize aws text voice_id fmt use_ssml = .ok audio ∧
      store_audio cfg aws fmt audio = .ok (key, content_type, url) ∧
      p = .obj [("audioUrl", .str url),
                ("bucket", .str cfg.audioBucket),
                ("key", .str key),
                ("voiceId", .str voice_id),
                ("format", .str fmt),
                ("contentType", .str content_type),
                ("ssml", .bool use_ssml)] := by
  unfold try_block at h
  repeat' split at h
  all_goals try cases h
  exact ⟨_, _, _, _, _, _, _, _, _, ‹_›, ‹_›, ‹_›, ‹_›, rfl⟩

/-- A non-empty Python string is truthy. -/
theorem truthy_str_of_ne (s : String) (h : s ≠ "") : (PyVal.str s).truthy = true := by
  simp [PyVal.truthy, h]

/-- `text or ""` applied to a present string is the string itself (when the
string is empty, the default coincides with it). -/
theorem pyOr_str_empty_default (t : String) :
    pyOr (some (.str t)) (.str "") = .str t := by
  by_cases h : t = ""
  · subst h
    rfl
  · simp [pyOr, truthy_str_of_ne t h]

/-- Every supported key has a `SUPPORTED_FORMATS` entry. -/
theorem fmtLookup_of_supported (fmt : String) (h : supportedKeys.contains fmt = true) :
    ∃ ct pf, fmtLookup fmt = some (ct, pf) := by
  rcases supported_cases fmt h with rfl | rfl | rfl
  · exact ⟨"audio/mpeg", "mp3", rfl⟩
  · exact ⟨"audio/ogg", "ogg_vorbis", rfl⟩
  · exact ⟨"audio/wave", "pcm", rfl⟩

/-- When every synthesis call reports an absent audio stream, `_synthesize`
on a supported format raises the no-stream `RuntimeError`. -/
theorem synthesize_no_stream (aws : Aws) (hs : ∀ args, aws.synthesize args = .ok none)
    (t v fmt : String) (s : Bool) (ct pf : String) (hf : fmtLookup fmt = some (ct, pf)) :
    synthesize aws t v fmt s = .error (.runtimeError "Polly returned no audio stream") := by
  simp only [synthesize, hf, hs]

/-- When every synthesis call reports an absent audio stream, `_synthesize`
never succeeds (on unsupported formats it raises `KeyError` instead). -/
theorem synthesize_no_stream_never_ok (aws : Aws)
    (hs : ∀ args, aws.synthesize args = .ok none)
    (t v fmt : String) (s : Bool) (audio : List Nat) :
    synthesize aws t v fmt s ≠ .ok audio := by
  unfold synthesize
  cases hf : fmtLookup fmt with
  | none => simp
  | some pr =>
    cases pr
    simp [hs]

/-- A failing `_synthesize` short-circuits the `try:` block. -/
theorem try_block_of_synth_err (cfg : Config) (aws : Aws) (event body : PyVal)
    (t v fmt : String) (s : Bool) (e : PyError)
    (hp : parse_body event = .ok body)
    (hr : read_inputs cfg body = .ok (t, v, fmt, s))
    (hsyn : synthesize aws t v fmt s = .error e) :
    try_block cfg aws event = .error e := by
  simp only [try_block, hp, hr, hsyn]

/-- A failing `_parse_body` short-circuits the `try:` block. -/
theorem try_block_of_parse_err (cfg : Config) (aws : Aws) (event : PyVal) (e : PyError)
    (hp : parse_body event = .error e) :
    try_block cfg aws event = .error e := by
  simp only [try_block, hp]

/-- Every error the `except` clauses convert yields a 400 or a 500, never a
200. -/
theorem handle_errors_error_status (cfg : Config) (e : PyError) :
    (handle_errors cfg (.error e)).statusCode = 400 ∨
    (handle_errors cfg (.error e)).statusCode = 500 := by
  cases e <;> simp [handle_errors, json_response]

/-- Every error response built by the `except` clauses carries an `error`
field in its body. -/
theorem handle_errors_error_field (cfg : Config) (e : PyError) :
    ∃ m, (handle_errors cfg (.error e)).body.objLookup "error" = some (.str m) := by
  cases e <;> exact ⟨_, rfl⟩

/-- The payload of the canonical successful run under `cfgEx`/`awsOk`. -/
def payloadHello : PyVal :=
  .obj [("audioUrl", .str "https://signed/audio/test-uuid.mp3"),
        ("bucket", .str "bkt"),
        ("key", .str "audio/test-uuid.mp3"),
        ("voiceId", .str "Joanna"),
        ("format", .str "mp3"),
        ("contentType", .str "audio/mpeg"),
        ("ssml", .bool false)]

/-- Event for the spec's unsupported-format example. -/
def evWav : PyVal := .obj [("body", .str "\x7b\"text\": \"hi\", \"format\": \"wav\"\x7d")]

/-! ## Claim C5 -/

/-- C5: for every request whose `text` field is absent, empty, or
whitespace-only after trimming, the handler returns status 400 with
body `\x7b"error": "Field 'text' is required"\x7d`, for every body whatever its
other fields hold, and independently of the synthesis/storage capabilities
(`aws` is universally quantified and the response does not mention it, so
no synthesis or storage call can have influenced it). -/
theorem c5_text_required_theorem (cfg : Config) (aws : Aws) (event body : PyVal)
    (tv : Option PyVal)
    (hl : log_extract event = .ok ())
    (hp : parse_body event = .ok body)
    (htv : dget body "text" = .ok tv)
    (habs : tv = none ∨ ∃ s, tv = some (.str s) ∧ strip_str s = "") :
    lambda_handler cfg aws event =
      .ok (json_response cfg 400 (.obj [("error", .str required_msg)])) := by
  have hempty : pyStrip (pyOr tv (.str "")) = .ok "" := by
    rcases habs with rfl | ⟨s, rfl, hs⟩
    · rfl
    · rw [pyOr_str_empty_default s]
      simp [pyStrip, hs]
  rw [lambda_handler_of_log cfg aws event hl,
      try_block_of_read_err cfg aws event body _ hp
        (read_inputs_err_required cfg body tv htv hempty)]
  rfl

/-- C5 witness: the whitespace-only text `"  "` yields the 400 response. -/
theorem c5_text_required_witness :
    lambda_handler cfgEx awsOk evBlankText =
      .ok (json_response cfgEx 400 (.obj [("error", .str required_msg)])) :=
  c5_text_required_theorem cfgEx awsOk evBlankText (.obj [("text", .str "  ")])
    (some (.str "  ")) rfl rfl rfl (Or.inr ⟨"  ", rfl, rfl⟩)

/-! ## Claim C6 -/

/-- C6: for every request whose trimmed text exceeds the configured maximum,
the handler returns status 400, and the error message contains both the
actual trimmed length and the configured limit as substrings. -/
theorem c6_too_long_theorem (cfg : Config) (aws : Aws) (event body : PyVal) (t : String)
    (hl : log_extract event = .ok ())
    (hp : parse_body event = .ok body)
    (htv : dget body "text" = .ok (some (.str t)))
    (hlen : (strip_str t).length > cfg.maxChars) :
    lambda_handler cfg aws event =
      .ok (json_response cfg 400
        (.obj [("error", .str (too_long_msg (strip_str t).length cfg.maxChars))])) ∧
    (∃ a b, too_long_msg (strip_str t).length cfg.maxChars =
      a ++ (toString (strip_str t).length ++ b)) ∧
    (∃ a b, too_long_msg (strip_str t).length cfg.maxChars =
      a ++ (toString cfg.maxChars ++ b)) := by
  have hst : pyStrip (pyOr (some (.str t)) (.str "")) = .ok (strip_str t) := by
    rw [pyOr_str_empty_default t]
    rfl
  refine ⟨?_, ?_, ?_⟩
  · rw [lambda_handler_of_log cfg aws event hl,
        try_block_of_read_err cfg aws event body _ hp
          (read_inputs_err_too_long cfg body (some (.str t)) (strip_str t) htv hst hlen)]
    rfl
  · exact ⟨"Text too long (", " chars). Limit is " ++ toString cfg.maxChars ++ ".",
      by simp [too_long_msg, String.append_assoc]⟩
  · exact ⟨"Text too long (" ++ toString (strip_str t).length ++ " chars). Limit is ", ".",
      by simp [too_long_msg, String.append_assoc]⟩

/-- C6 witness: a 20-character text against a 5-character limit. -/
theorem c6_too_long_witness :
    lambda_handler cfgSmall awsOk evLongText =
      .ok (json_response cfgSmall 400
        (.obj [("error",
          .str (too_long_msg (strip_str "абв longer than five").length cfgSmall.maxChars))])) ∧
    (∃ a b, too_long_msg (strip_str "абв longer than five").length cfgSmall.maxChars =
      a ++ (toString (strip_str "абв longer than five").length ++ b)) ∧
    (∃ a b, too_long_msg (strip_str "абв longer than five").length cfgSmall.maxChars =
      a ++ (toString cfgSmall.maxChars ++ b)) :=
  c6_too_long_theorem cfgSmall awsOk evLongText
    (.obj [("text", .str "абв longer than five")]) "абв longer than five"
    rfl rfl rfl (by decide)

/-! ## Claim C7 -/

/-- C7: every response the handler produces — success or failure, any status
code — carries exactly the fixed header set of `_json_response`, including
the configured cross-origin allow value and the allowed methods and
headers. -/
theorem c7_headers_theorem (cfg : Config) (aws : Aws) (event : PyVal) (r : HttpResponse)
    (h : lambda_handler cfg aws event = .ok r) :
    r.headers = response_headers cfg ∧
    ("Access-Control-Allow-Origin", cfg.allowedOrigin) ∈ r.headers ∧
    ("Access-Control-Allow-Methods", "OPTIONS,POST") ∈ r.headers ∧
    ("Access-Control-Allow-Headers", "*") ∈ r.headers := by
  unfold lambda_handler at h
  split at h
  · cases h
  · cases h
    have hh : (handle_errors cfg (try_block cfg aws event)).headers = response_headers cfg := by
      cases htb : try_block cfg aws event with
      | ok p => rfl
      | error e => cases e <;> rfl
    refine ⟨hh, ?_, ?_, ?_⟩ <;> rw [hh] <;> simp [response_headers]

/-- C7 witness: the headers of the canonical successful response. -/
theorem c7_headers_witness :
    (json_response cfgEx 200 payloadHello).headers = response_headers cfgEx ∧
    ("Access-Control-Allow-Origin", cfgEx.allowedOrigin) ∈
      (json_response cfgEx 200 payloadHello).headers ∧
    ("Access-Control-Allow-Methods", "OPTIONS,POST") ∈
      (json_response cfgEx 200 payloadHello).headers ∧
    ("Access-Control-Allow-Headers", "*") ∈
      (json_response cfgEx 200 payloadHello).headers :=
  c7_headers_theorem cfgEx awsOk evHello (json_response cfgEx 200 payloadHello) rfl

/-! ## Claim C2 -/

/-- C2 counterexample: on the event whose `requestContext` is the string
`"ctx"`, the `.get("http", ...)` chain of the structured-log line — which
runs before the `try:` block — raises an `AttributeError` that propagates
out of `lambda_handler` uncaught, so not every error is converted into a
response. -/
theorem c2_uncaught_counterexample :
    lambda_handler cfgEx awsOk evBadRC =
      .error (.attributeError "\x27str\x27 object has no attribute \x27get\x27") := rfl

/-- C2 (amended): for every event on which the pre-`try` structured-log
field extraction succeeds, every error raised during handling is caught and
converted into a structured JSON response: the handler returns the value the
`except` clauses make of the `try:` block, and every error so converted
yields a 400 or 500 response whose body carries an `error` field. -/
theorem c2_caught_theorem (cfg : Config) (aws : Aws) (event : PyVal)
    (hl : log_extract event = .ok ()) :
    lambda_handler cfg aws event = .ok (handle_errors cfg (try_block cfg aws event)) ∧
    ∀ e, try_block cfg aws event = .error e →
      ((handle_errors cfg (.error e)).statusCode = 400 ∨
       (handle_errors cfg (.error e)).statusCode = 500) ∧
      ∃ m, (handle_errors cfg (.error e)).body.objLookup "error" = some (.str m) := by
  refine ⟨lambda_handler_of_log cfg aws event hl, ?_⟩
  intro e _
  exact ⟨handle_errors_error_status cfg e, handle_errors_error_field cfg e⟩

/-- C2 witness: a concrete event on which the log extraction succeeds and
the handler therefore returns a response. -/
theorem c2_caught_witness :
    lambda_handler cfgEx awsOk evHi = .ok (handle_errors cfgEx (try_block cfgEx awsOk evHi)) :=
  (c2_caught_theorem cfgEx awsOk evHi rfl).1

/-! ## Claim C1 -/

/-- C1 counterexample: with a mocked synthesis capability that returns no
stream, the handler answers 500 but the body's category label is
`"Unexpected error"` — the `RuntimeError` raised for a missing stream is not
a `BotoCoreError`/`ClientError`, so it lands in the generic catch-all rather
than the `"AWS error"` provider-error branch the claim names. -/
theorem c1_no_stream_counterexample :
    lambda_handler cfgEx awsNoStream evHi =
      .ok (json_response cfgEx 500
        (.obj [("error", .str "Unexpected error"),
               ("detail", .str "Polly returned no audio stream")])) ∧
    "Unexpected error" ≠ "AWS error" ∧ "Unexpected error" ≠ "provider error" :=
  ⟨rfl, by decide, by decide⟩

/-- C1 (amended): with a mocked synthesis capability that returns no audio
stream, the handler never yields a 200; on any request that passes parsing
and validation it yields a 500 whose body carries the generic
`"Unexpected error"` label with detail `"Polly returned no audio stream"`
(not the `"AWS error"` provider category). -/
theorem c1_no_stream_theorem (cfg : Config) (aws : Aws) (event : PyVal)
    (hs : ∀ args, aws.synthesize args = .ok none) :
    (∀ r, lambda_handler cfg aws event = .ok r → r.statusCode ≠ 200) ∧
    (∀ body text voice fmt ssml,
      log_extract event = .ok () →
      parse_body event = .ok body →
      read_inputs cfg body = .ok (text, voice, fmt, ssml) →
      lambda_handler cfg aws event =
        .ok (json_response cfg 500
          (.obj [("error", .str "Unexpected error"),
                 ("detail", .str "Polly returned no audio stream")]))) := by
  constructor
  · intro r hr
    unfold lambda_handler at hr
    split at hr
    · cases hr
    · cases hr
      cases htb : try_block cfg aws event with
      | error e =>
        rcases handle_errors_error_status cfg e with h4 | h5
        · rw [h4]
          decide
        · rw [h5]
          decide
      | ok p =>
        obtain ⟨b, t, v, f, s, audio, key, ct, url, _, _, hsyn, _, _⟩ :=
          try_block_ok_elim cfg aws event p htb
        exact absurd hsyn (synthesize_no_stream_never_ok aws hs t v f s audio)
  · intro body text voice fmt ssml hl hp hr
    obtain ⟨tv, fv, vv, uv, fs, _, _, _, _, _, _, _, hsup, _, _, _, _⟩ :=
      read_inputs_ok_elim cfg body text voice fmt ssml hr
    obtain ⟨ct, pf, hflk⟩ := fmtLookup_of_supported fmt hsup
    rw [lambda_handler_of_log cfg aws event hl,
        try_block_of_synth_err cfg aws event body text voice fmt ssml _ hp hr
          (synthesize_no_stream aws hs text voice fmt ssml ct pf hflk)]
    rfl

/-- C1 witness: the amended behaviour on the concrete `evHi` request. -/
theorem c1_no_stream_witness :
    lambda_handler cfgEx awsNoStream evHi =
      .ok (json_response cfgEx 500
        (.obj [("error", .str "Unexpected error"),
               ("detail", .str "Polly returned no audio stream")])) :=
  (c1_no_stream_theorem cfgEx awsNoStream evHi (fun _ => rfl)).2
    (.obj [("text", .str "hi")]) "hi" "Joanna" "mp3" false rfl rfl rfl

/-! ## Claim C4 -/

/-- C4 counterexample: the format `" MP3"` is not one of
`mp3`/`ogg_vorbis`/`pcm` after lower-casing alone, yet the handler (source
normalizes with `.strip().lower()`) accepts it and returns 200 rather than
the claimed 400. -/
theorem c4_format_counterexample :
    lower_str " MP3" ≠ "mp3" ∧ lower_str " MP3" ≠ "ogg_vorbis" ∧ lower_str " MP3" ≠ "pcm" ∧
    lambda_handler cfgEx awsOk evFmtSpace = .ok (json_response cfgEx 200 payloadHello) ∧
    (json_response cfgEx 200 payloadHello).statusCode = 200 :=
  ⟨by decide, by decide, by decide, rfl, rfl⟩

/-- C4 (amended): for every request that passes the text validation and
whose `format` field is a string that, after trimming and lower-casing, is
not one of mp3/ogg_vorbis/pcm, the handler returns 400 with the message
enumerating exactly those three supported tokens; and an absent `format`
still defaults to `"mp3"`. -/
theorem c4_format_theorem :
    (∀ (cfg : Config) (aws : Aws) (event body : PyVal) (tv fv : Option PyVal) (t fs : String),
      log_extract event = .ok () →
      parse_body event = .ok body →
      dget body "text" = .ok tv →
      pyStrip (pyOr tv (.str "")) = .ok t →
      t ≠ "" →
      t.length ≤ cfg.maxChars →
      dget body "format" = .ok fv →
      pyStrip (pyOr fv (.str "mp3")) = .ok fs →
      supportedKeys.contains (lower_str fs) = false →
      lambda_handler cfg aws event =
        .ok (json_response cfg 400 (.obj [("error", .str format_err_msg)]))) ∧
    (∀ (cfg : Config) (body : PyVal) (t v f : String) (s : Bool),
      dget body "format" = .ok none →
      read_inputs cfg body = .ok (t, v, f, s) →
      f = "mp3") := by
  constructor
  · intro cfg aws event body tv fv t fs hl hp htv hst hne hlen hfv hfs hbad
    rw [lambda_handler_of_log cfg aws event hl,
        try_block_of_read_err cfg aws event body _ hp
          (read_inputs_err_format cfg body tv fv t fs htv hst hne hlen hfv hfs hbad)]
    rfl
  · intro cfg body t v f s hnone hr
    obtain ⟨tv, fv, vv, uv, fs, _, _, _, _, hfv, hfs, hfmt, _, _, _, _, _⟩ :=
      read_inputs_ok_elim cfg body t v f s hr
    rw [hnone] at hfv
    injection hfv with hfv
    subst hfv
    have hms : Except.ok (ε := PyError) "mp3" = .ok fs := hfs
    injection hms with hms
    subst hms
    rw [hfmt]
    rfl

/-- C4 witness: the spec's `"wav"` example yields the enumerating 400, and
`evHi` (absent format) validates to `"mp3"`. -/
theorem c4_format_witness :
    lambda_handler cfgEx awsOk evWav =
      .ok (json_response cfgEx 400 (.obj [("error", .str format_err_msg)])) ∧
    "mp3" = "mp3" :=
  ⟨c4_format_theorem.1 cfgEx awsOk evWav
      (.obj [("text", .str "hi"), ("format", .str "wav")])
      (some (.str "hi")) (some (.str "wav")) "hi" "wav"
      rfl rfl rfl rfl (by decide) (by decide) rfl rfl rfl,
    c4_format_theorem.2 cfgEx (.obj [("text", .str "hi")]) "hi" "Joanna" "mp3" false rfl rfl⟩

/-! ## Claim C8 -/

/-- C8 counterexample: for the event with a null body but
`isBase64Encoded: true`, the default `"\x7b\x7d"` body is base64-filtered to the
empty byte string, `json.loads` then fails, and the handler returns the 400
`"Invalid JSON body"` error — not the claimed `"Field 'text' is required"`. -/
theorem c8_empty_body_counterexample :
    lambda_handler cfgEx awsOk evB64 =
      .ok (json_response cfgEx 400 (.obj [("error", .str "Invalid JSON body")])) ∧
    "Invalid JSON body" ≠ required_msg :=
  ⟨rfl, by decide⟩

/-- C8 (amended): for every event whose `body` field is absent, null, or the
empty string and that is not flagged base64-encoded, the body is treated as
`"\x7b\x7d"`, parsing succeeds, and the request fails with the 400
`"Field 'text' is required"` validation error. -/
theorem c8_empty_body_theorem (cfg : Config) (aws : Aws) (event : PyVal)
    (bodyv flagv : Option PyVal)
    (hl : log_extract event = .ok ())
    (hb : dget event "body" = .ok bodyv)
    (habs : bodyv = none ∨ bodyv = some .null ∨ bodyv = some (.str ""))
    (hf : dget event "isBase64Encoded" = .ok flagv)
    (hflag : flag_truthy flagv = false) :
    lambda_handler cfg aws event =
      .ok (json_response cfg 400 (.obj [("error", .str required_msg)])) := by
  have hraw : pyOr bodyv (.str "\x7b\x7d") = .str "\x7b\x7d" := by
    rcases habs with rfl | rfl | rfl <;> rfl
  have hpb : parse_body event = .ok (.obj []) := by
    simp only [parse_body, hb, hf, hraw, hflag]
    rfl
  rw [lambda_handler_of_log cfg aws event hl,
      try_block_of_read_err cfg aws event (.obj []) _ hpb
        (read_inputs_err_required cfg (.obj []) none rfl rfl)]
  rfl

/-- C8 witness: the event with no body and no base64 flag gets the
`"Field 'text' is required"` 400. -/
theorem c8_empty_body_witness :
    lambda_handler cfgEx awsOk evNoBody =
      .ok (json_response cfgEx 400 (.obj [("error", .str required_msg)])) :=
  c8_empty_body_theorem cfgEx awsOk evNoBody none none rfl rfl (Or.inl rfl) rfl rfl

/-! ## Claim C9 -/

/-- C9: `useSsml` is coerced by Python truthiness, not parsed: whenever
validation succeeds the resulting flag is exactly the truthiness of the
field's value (`false` when absent); the non-empty strings `"false"` and
`"0"` are truthy while `False`, `0`, `None` and `""` are falsy; and a true
flag makes `_synthesize` call the capability with `TextType = "ssml"`
(visible through the `ssmlProbe` mock) while a false flag does not. -/
theorem c9_ssml_truthiness_theorem :
    (∀ (cfg : Config) (body : PyVal) (uv : Option PyVal)
       (text voice fmt : String) (ssml : Bool),
      dget body "useSsml" = .ok uv →
      read_inputs cfg body = .ok (text, voice, fmt, ssml) →
      ssml = (uv.getD (.bool false)).truthy) ∧
    (PyVal.str "false").truthy = true ∧
    (PyVal.str "0").truthy = true ∧
    (PyVal.bool false).truthy = false ∧
    (PyVal.num 0).truthy = false ∧
    PyVal.null.truthy = false ∧
    (PyVal.str "").truthy = false ∧
    (∀ (text voice fmt ct pf : String), fmtLookup fmt = some (ct, pf) →
      synthesize ssmlProbe text voice fmt true = .ok [1] ∧
      synthesize ssmlProbe text voice fmt false = .ok [0]) := by
  refine ⟨?_, rfl, rfl, rfl, rfl, rfl, rfl, ?_⟩
  · intro cfg body uv text voice fmt ssml huv hr
    obtain ⟨tv, fv, vv, uv', fs, _, _, _, _, _, _, _, _, _, _, huv', hssml⟩ :=
      read_inputs_ok_elim cfg body text voice fmt ssml hr
    rw [huv] at huv'
    injection huv' with huv'
    rw [hssml, huv']
  · intro text voice fmt ct pf hf
    constructor <;> simp only [synthesize, hf] <;> rfl

/-- C9 witness: `useSsml: "false"` validates to a true flag, and the probe
confirms the markup-mode call. -/
theorem c9_ssml_truthiness_witness :
    (true = ((some (PyVal.str "false")).getD (PyVal.bool false)).truthy) ∧
    synthesize ssmlProbe "hi" "Joanna" "mp3" true = .ok [1] ∧
    synthesize ssmlProbe "hi" "Joanna" "mp3" false = .ok [0] :=
  ⟨c9_ssml_truthiness_theorem.1 cfgEx
      (.obj [("text", .str "hi"), ("useSsml", .str "false")])
      (some (.str "false")) "hi" "Joanna" "mp3" true rfl rfl,
    c9_ssml_truthiness_theorem.2.2.2.2.2.2.2 "hi" "Joanna" "mp3" "audio/mpeg" "mp3" rfl⟩

/-! ## Claim C10 -/

/-- C10: `voiceId` defaults by falsiness before trimming: an absent, null,
or empty-string `voiceId` resolves to the default voice `"Joanna"`, but a
whitespace-only `voiceId` such as `" "` is trimmed to the empty string
instead; the `voiceProbe` mock (which echoes the voice id it receives as
bytes) confirms the empty voice identifier reaches the synthesis call. -/
theorem c10_voice_default_theorem :
    (∀ (cfg : Config) (body : PyVal) (vv : Option PyVal)
       (text voice fmt : String) (ssml : Bool),
      dget body "voiceId" = .ok vv →
      read_inputs cfg body = .ok (text, voice, fmt, ssml) →
      ((vv = none ∨ vv = some .null ∨ vv = some (.str "") → voice = DEFAULT_VOICE) ∧
       (vv = some (.str " ") → voice = ""))) ∧
    (∀ (text fmt : String) (ssml : Bool) (ct pf : String),
      fmtLookup fmt = some (ct, pf) →
      synthesize voiceProbe text "" fmt ssml = .ok []) := by
  constructor
  · intro cfg body vv text voice fmt ssml hvv hr
    obtain ⟨tv, fv, vv', uv, fs, _, _, _, _, _, _, _, _, hvv', hvs, _, _⟩ :=
      read_inputs_ok_elim cfg body text voice fmt ssml hr
    rw [hvv] at hvv'
    injection hvv' with hvv'
    subst hvv'
    constructor
    · intro habs
      have hdef : pyStrip (pyOr vv (.str DEFAULT_VOICE)) = .ok DEFAULT_VOICE := by
        rcases habs with rfl | rfl | rfl <;> rfl
      rw [hdef] at hvs
      injection hvs with hvs
      exact hvs.symm
    · intro hsp
      subst hsp
      have hsp' : pyStrip (pyOr (some (.str " ")) (.str DEFAULT_VOICE)) = .ok "" := rfl
      rw [hsp'] at hvs
      injection hvs with hvs
      exact hvs.symm
  · intro text fmt ssml ct pf hf
    simp only [synthesize, hf]
    rfl

/-- C10 witness: the `" "` voice id validates to the empty voice, and the
probe confirms the empty identifier reaches synthesis. -/
theorem c10_voice_default_witness :
    ((some (PyVal.str " ") = none ∨ some (PyVal.str " ") = some PyVal.null ∨
        some (PyVal.str " ") = some (PyVal.str "") → "" = DEFAULT_VOICE) ∧
     (some (PyVal.str " ") = some (PyVal.str " ") → "" = "")) ∧
    synthesize voiceProbe "hi" "" "mp3" false = .ok [] :=
  ⟨c10_voice_default_theorem.1 cfgEx
      (.obj [("text", .str "hi"), ("voiceId", .str " ")])
      (some (.str " ")) "hi" "" "mp3" false rfl rfl,
    c10_voice_default_theorem.2 "hi" "mp3" false "audio/mpeg" "mp3" rfl⟩

/-! ## Claim C3 -/

/-- C3: every request that succeeds end to end gets a 200 response whose
payload's `key` is exactly the `audio/<generated id>.<ext>` key both storage
calls were issued against, whose `audioUrl` is the URL the signing call
returned for that same key, whose `contentType` is the format's content
type, and whose `format` echoes the validated token; the extension and
content type are `mp3`/`audio/mpeg`, `ogg`/`audio/ogg`, or
`pcm`/`audio/wave` for `mp3`, `ogg_vorbis`, and `pcm` respectively. -/
theorem c3_success_response_theorem (cfg : Config) (aws : Aws) (event : PyVal) (p : PyVal)
    (hl : log_extract event = .ok ())
    (htb : try_block cfg aws event = .ok p) :
    lambda_handler cfg aws event = .ok (json_response cfg 200 p) ∧
    (json_response cfg 200 p).statusCode = 200 ∧
    ∃ body text voice_id fmt ssml audio url,
      parse_body event = .ok body ∧
      read_inputs cfg body = .ok (text, voice_id, fmt, ssml) ∧
      synthesize aws text voice_id fmt ssml = .ok audio ∧
      aws.putObject { bucket := cfg.audioBucket,
                      key := "audio/" ++ aws.uuid ++ "." ++ audio_ext fmt,
                      body := audio, contentType := content_type_of fmt } = .ok () ∧
      aws.presignUrl { bucket := cfg.audioBucket,
                       key := "audio/" ++ aws.uuid ++ "." ++ audio_ext fmt,
                       expiresIn := cfg.urlExpirySeconds } = .ok url ∧
      p.objLookup "audioUrl" = some (.str url) ∧
      p.objLookup "key" = some (.str ("audio/" ++ aws.uuid ++ "." ++ audio_ext fmt)) ∧
      p.objLookup "contentType" = some (.str (content_type_of fmt)) ∧
      p.objLookup "format" = some (.str fmt) ∧
      p.objLookup "ssml" = some (.bool ssml) ∧
      ((fmt = "mp3" ∧ audio_ext fmt = "mp3" ∧ content_type_of fmt = "audio/mpeg") ∨
       (fmt = "ogg_vorbis" ∧ audio_ext fmt = "ogg" ∧ content_type_of fmt = "audio/ogg") ∨
       (fmt = "pcm" ∧ audio_ext fmt = "pcm" ∧ content_type_of fmt = "audio/wave")) := by
  refine ⟨?_, rfl, ?_⟩
  · rw [lambda_handler_of_log cfg aws event hl, htb]
    rfl
  · obtain ⟨body, text, voice_id, fmt, ssml, audio, key, ct, url, hp, hr, hsyn, hst, hpeq⟩ :=
      try_block_ok_elim cfg aws event p htb
    obtain ⟨hkey, ⟨pf, hflk⟩, hput, hsign⟩ :=
      store_audio_ok_elim cfg aws fmt audio key ct url hst
    obtain ⟨tv, fv, vv, uv, fs, _, _, _, _, _, _, _, hsup, _, _, _, _⟩ :=
      read_inputs_ok_elim cfg body text voice_id fmt ssml hr
    have hct : content_type_of fmt = ct := by
      rw [content_type_of, hflk]
    subst hkey
    subst hpeq
    refine ⟨body, text, voice_id, fmt, ssml, audio, url, hp, hr, hsyn, ?_, ?_, rfl, rfl, ?_, rfl, rfl, ?_⟩
    · rw [hct]
      exact hput
    · exact hsign
    · rw [hct]
      rfl
    · rcases supported_cases fmt hsup with rfl | rfl | rfl
      · exact Or.inl ⟨rfl, rfl, rfl⟩
      · exact Or.inr (Or.inl ⟨rfl, rfl, rfl⟩)
      · exact Or.inr (Or.inr ⟨rfl, rfl, rfl⟩)

/-- C3 witness: the spec's end-to-end example request under the successful
mocks. -/
theorem c3_success_response_witness :
    lambda_handler cfgEx awsOk evHello = .ok (json_response cfgEx 200 payloadHello) ∧
    (json_response cfgEx 200 payloadHello).statusCode = 200 ∧
    ∃ body text voice_id fmt ssml audio url,
      parse_body evHello = .ok body ∧
      read_inputs cfgEx body = .ok (text, voice_id, fmt, ssml) ∧
      synthesize awsOk text voice_id fmt ssml = .ok audio ∧
      awsOk.putObject { bucket := cfgEx.audioBucket,
                        key := "audio/" ++ awsOk.uuid ++ "." ++ audio_ext fmt,
                        body := audio, contentType := content_type_of fmt } = .ok () ∧
      awsOk.presignUrl { bucket := cfgEx.audioBucket,
                         key := "audio/" ++ awsOk.uuid ++ "." ++ audio_ext fmt,
                         expiresIn := cfgEx.urlExpirySeconds } = .ok url ∧
      payloadHello.objLookup "audioUrl" = some (.str url) ∧
      payloadHello.objLookup "key" =
        some (.str ("audio/" ++ awsOk.uuid ++ "." ++ audio_ext fmt)) ∧
      payloadHello.objLookup "contentType" = some (.str (content_type_of fmt)) ∧
      payloadHello.objLookup "format" = some (.str fmt) ∧
      payloadHello.objLookup "ssml" = some (.bool ssml) ∧
      ((fmt = "mp3" ∧ audio_ext fmt = "mp3" ∧ content_type_of fmt = "audio/mpeg") ∨
       (fmt = "ogg_vorbis" ∧ audio_ext fmt = "ogg" ∧ content_type_of fmt = "audio/ogg") ∨
       (fmt = "pcm" ∧ audio_ext fmt = "pcm" ∧ content_type_of fmt = "audio/wave")) :=
  c3_success_response_theorem cfgEx awsOk evHello payloadHello rfl rfl
